import Mathlib

/-!
Verification of the easyway-backend form-intake contract.

The repository has two variants of the same Express server:
  * the SMTP variant (src/server.js), sending through nodemailer, and
  * the Resend variant (src/unnamed/part_000), sending through the Resend HTTP API.

Both expose `POST /api/send-form`.  We embed the request handler of each
variant as a pure function from the submission, the environment, and the
outcome the mail transport would produce, to the HTTP response together with
the list of transport calls that were made.  JavaScript strings become Lean
`String` (or `List Char` where we reason about the character sequence);
possibly-undefined values become `Option String`; JavaScript truthiness of a
string-or-undefined value is the `truthy` predicate below.
-/

set_option maxRecDepth 8000

/-- JavaScript truthiness for a string-or-undefined value: `undefined` and the
empty string are falsy, every other string is truthy. -/
def truthy : Option String → Bool
  | none => false
  | some s => !(s == "")

/-- Template-literal interpolation of a string-or-undefined value: JavaScript
renders `undefined` as the text "undefined". -/
def jsStr : Option String → String
  | none => "undefined"
  | some s => s

/-- The JavaScript expression `v || dflt` for a string-or-undefined `v`. -/
def strOr (v : Option String) (dflt : String) : String :=
  if truthy v then v.getD dflt else dflt

/-- `String.prototype.replaceAll` (or `replace` with a global regex) for a
single-character pattern: each occurrence of `pat` is replaced by `toStr`. -/
def repl (pat : Char) (toStr : List Char) : List Char → List Char
  | [] => []
  | c :: rest => (if c = pat then toStr else [c]) ++ repl pat toStr rest

/-- `escapeHtml` of the Resend variant, on the character sequence:
`replaceAll("&","&amp;").replaceAll("<","&lt;").replaceAll(">","&gt;")`,
applied in that order. -/
def escapeHtmlData (l : List Char) : List Char :=
  repl '>' "&gt;".data (repl '<' "&lt;".data (repl '&' "&amp;".data l))

/-- `escapeHtml` as a function on strings (the form used for `reply_to`). -/
def escapeHtml (s : String) : String :=
  ⟨escapeHtmlData s.data⟩

/-- The `.replace(/\n/g, "<br/>")` step used by both variants on the message. -/
def newlineToBr (l : List Char) : List Char :=
  repl '\n' "<br/>".data l

/-- One form submission, as destructured from `req.body`:
`{ name, email, phone, message, loanType, sourcePage }`.  A missing field is
`none`. -/
structure Submission where
  name : Option String
  email : Option String
  phone : Option String
  message : Option String
  loanType : Option String
  sourcePage : Option String

/-- The environment variables the handlers read.  `smtpUser` is
`process.env.SMTP_USER`; `sendToEmail` is `process.env.SEND_TO_EMAIL`;
`sendToEmailTest` is `process.env.SEND_TO_EMAIL_TEST`. -/
structure Env where
  smtpUser : Option String
  sendToEmail : Option String
  sendToEmailTest : Option String

/-- Outcome of the transport call, were it to be made: `ok rid` models a
resolved send whose result carries the optional message identifier `rid`
(`info.messageId` / `result?.id`); `err m` models the send rejecting with an
error whose `.message` is `m`. -/
inductive SendOutcome where
  | ok : Option String → SendOutcome
  | err : String → SendOutcome

/-- The JSON body and status the handler responds with.  `id = none` means the
`id` key is absent from the body; `id = some none` means it is present with
value `null`; `id = some (some s)` means it is present with string value `s`. -/
structure HttpResponse where
  status : Nat
  success : Bool
  error : Option String
  id : Option (Option String)
  deriving DecidableEq

/-- The argument of `transporter.sendMail` in the SMTP variant.  `fromAddr`
stands for the `from` field (`from` is a Lean keyword). -/
structure MailSmtp where
  fromAddr : String
  toAddr : Option String
  replyTo : String
  subject : String
  text : List Char
  html : List Char

/-- The argument of `resend.emails.send` in the Resend variant. -/
structure MailResend where
  fromAddr : String
  toAddr : Option String
  reply_to : String
  subject : String
  html : List Char

/-- The CORS allow-list of the SMTP variant. -/
def allowedOrigins_smtp : List String :=
  ["http://localhost:5173",
   "http://127.0.0.1:5173",
   "https://darkblue-fly-926171.hostingersite.com"]

/-- The CORS allow-list of the Resend variant. -/
def allowedOrigins_resend : List String :=
  ["http://localhost:5173",
   "http://127.0.0.1:5173",
   "https://pink-goldfish-475332.hostingersite.com",
   "https://easywayloan.in",
   "https://www.easywayloan.in"]

/-- The origin callback of the SMTP variant:
`if (!origin || allowedOrigins.includes(origin)) cb(null, true) else cb(error)`.
`true` means the request is accepted. -/
def corsOriginSmtp (origin : Option String) : Bool :=
  if !truthy origin then true
  else allowedOrigins_smtp.contains (origin.getD "")

/-- The origin callback of the Resend variant: `if (!origin) return cb(null,true);
if (allowedOrigins.includes(origin)) return cb(null,true); return cb(error)`. -/
def corsOriginResend (origin : Option String) : Bool :=
  if !truthy origin then true
  else allowedOrigins_resend.contains (origin.getD "")

/-- Subject derivation of the SMTP variant.  In the source `subjectLine` is
initialised to "New Submission Received" and then reassigned by an
`if / else if / else` chain whose final `else` is unconditional, so the chain
below is the whole function (claim C9 proves the initial value unreachable). -/
def subjectSmtp (sourcePage : Option String) (name : String) : String :=
  if sourcePage = some "Application Form" then "New Loan Application from " ++ name
  else if sourcePage = some "Contact Form" then "New Contact Request from " ++ name
  else if sourcePage = some "Home Contact" then "New Enquiry from " ++ name
  else "New Enquiry from " ++ name

/-- Subject derivation of the Resend variant: a `switch (sourcePage)` with a
`default` arm, modeled as a pattern match. -/
def subjectResend (sourcePage : Option String) (name : String) : String :=
  match sourcePage with
  | some "Application Form" => "New Loan Application from " ++ name
  | some "Contact Form" => "New Contact Request from " ++ name
  | some "Home Contact" => "New Enquiry from " ++ name
  | _ => "New Enquiry from " ++ name

/-- The `<p><strong>Message:</strong><br/>...</p>` part of the SMTP HTML body:
the unescaped message (or "-") with newlines replaced by "<br/>". -/
def messageSectionSmtp (sub : Submission) : List Char :=
  "<p><strong>Message:</strong><br/>".data
    ++ newlineToBr (strOr sub.message "-").data
    ++ "</p>".data

/-- The HTML body built by the SMTP variant.  Segments are the template
literal split at each interpolation; `messageSectionSmtp` carries the
`<p>...Message...</p>` element.  No user string is escaped. -/
def htmlSmtp (sub : Submission) : List Char :=
  "\n      <h2>".data ++ (subjectSmtp sub.sourcePage (sub.name.getD "")).data
    ++ "</h2>\n      <p><strong>Name:</strong> ".data ++ (jsStr sub.name).data
    ++ "</p>\n      <p><strong>Email:</strong> ".data ++ (jsStr sub.email).data
    ++ "</p>\n      <p><strong>Phone:</strong> ".data ++ (jsStr sub.phone).data
    ++ "</p>\n      <p><strong>Loan Type:</strong> ".data ++ (strOr sub.loanType "-").data
    ++ "</p>\n      ".data ++ messageSectionSmtp sub
    ++ "\n      <hr/>\n      <p>Submitted from page: <strong>".data
    ++ (strOr sub.sourcePage "Unknown").data
    ++ "</strong></p>\n    ".data

/-- The plain-text body built by the SMTP variant; every interpolation is the
raw template-literal rendering of the field. -/
def textSmtp (sub : Submission) : List Char :=
  "\nName: ".data ++ (jsStr sub.name).data
    ++ "\nEmail: ".data ++ (jsStr sub.email).data
    ++ "\nPhone: ".data ++ (jsStr sub.phone).data
    ++ "\nLoan Type: ".data ++ (jsStr sub.loanType).data
    ++ "\nMessage: ".data ++ (jsStr sub.message).data
    ++ "\nSource Page: ".data ++ (jsStr sub.sourcePage).data
    ++ "\n".data

/-- The `<div>...</div>` element holding `safeMessage` in the Resend HTML
body: `escapeHtml(message).replace(/\n/g, "<br/>")`. -/
def messageSectionResend (sub : Submission) : List Char :=
  "<div>".data
    ++ newlineToBr (escapeHtmlData (sub.message.getD "").data)
    ++ "</div>".data

/-- The HTML body built by the Resend variant: every interpolated user string
is passed through `escapeHtml` first (`safeName`, `safeEmail`, `safePhone`,
`safeLoanType`, `safeMessage`, `safeSource`). -/
def htmlResend (sub : Submission) : List Char :=
  "\n      <h2>Easy Way Loan - New Submission</h2>\n      <p><strong>Name:</strong> ".data
    ++ escapeHtmlData (sub.name.getD "").data
    ++ "</p>\n      <p><strong>Email:</strong> ".data
    ++ escapeHtmlData (sub.email.getD "").data
    ++ "</p>\n      <p><strong>Phone:</strong> ".data
    ++ escapeHtmlData (strOr sub.phone "-").data
    ++ "</p>\n      <p><strong>Loan Type:</strong> ".data
    ++ escapeHtmlData (strOr sub.loanType "-").data
    ++ "</p>\n      <p><strong>Message:</strong></p>\n      ".data
    ++ messageSectionResend sub
    ++ "\n      <p><small>Submitted from: ".data
    ++ escapeHtmlData (strOr sub.sourcePage "Website").data
    ++ "</small></p>\n    ".data

/-- Required-field check of the SMTP variant: `!(!name || !email || !phone)`. -/
def validSmtpB (sub : Submission) : Bool :=
  truthy sub.name && truthy sub.email && truthy sub.phone

/-- Required-field check of the Resend variant: `!(!name || !email || !message)`. -/
def validResendB (sub : Submission) : Bool :=
  truthy sub.name && truthy sub.email && truthy sub.message

/-- The `POST /api/send-form` handler of the SMTP variant.  Returns the HTTP
response together with the list of `transporter.sendMail` calls made.
On transport failure the response body is `{success:false, error: err.message}`. -/
def handlerSmtp (env : Env) (sub : Submission) (outcome : SendOutcome) :
    HttpResponse × List MailSmtp :=
  if !truthy sub.name || !truthy sub.email || !truthy sub.phone then
    ({ status := 400, success := false, error := some "Missing required fields", id := none }, [])
  else
    let mail : MailSmtp :=
      { fromAddr := "\"Easy Way Loans\" <" ++ jsStr env.smtpUser ++ ">"
        toAddr := env.sendToEmail
        replyTo := sub.email.getD ""
        subject := subjectSmtp sub.sourcePage (sub.name.getD "")
        text := textSmtp sub
        html := htmlSmtp sub }
    match outcome with
    | SendOutcome.ok _ =>
        ({ status := 200, success := true, error := none, id := none }, [mail])
    | SendOutcome.err m =>
        ({ status := 500, success := false, error := some m, id := none }, [mail])

/-- The `POST /api/send-form` handler of the Resend variant.  Returns the HTTP
response together with the list of `resend.emails.send` calls made.  Note
`reply_to` is `safeEmail = escapeHtml(email)`, and the success body carries
`id: result?.id || null`. -/
def handlerResend (env : Env) (sub : Submission) (outcome : SendOutcome) :
    HttpResponse × List MailResend :=
  if !truthy sub.name || !truthy sub.email || !truthy sub.message then
    ({ status := 400, success := false,
       error := some "Missing required fields: name, email, message", id := none }, [])
  else
    let mail : MailResend :=
      { fromAddr := "EasyWayLoan <onboarding@resend.dev>"
        toAddr := if truthy env.sendToEmailTest then env.sendToEmailTest else env.sendToEmail
        reply_to := escapeHtml (sub.email.getD "")
        subject := subjectResend sub.sourcePage (sub.name.getD "")
        html := htmlResend sub }
    match outcome with
    | SendOutcome.ok rid =>
        ({ status := 200, success := true, error := none,
           id := some (if truthy rid then rid else none) }, [mail])
    | SendOutcome.err _ =>
        ({ status := 500, success := false, error := some "Server error", id := none }, [mail])

/-!
Character-sequence machinery.

`applyMap f` applies an expansion `f` to every character and concatenates the
results; `escapeHtmlData` and its composition with `newlineToBr` are proved to
be instances.  `countSub p l` counts the positions of `l` at which the pattern
`p` occurs.
-/

/-- Apply a character expansion to every character and concatenate. -/
def applyMap (f : Char → List Char) : List Char → List Char
  | [] => []
  | c :: rest => f c ++ applyMap f rest

/-- The per-character action of `escapeHtml`. -/
def escChar (c : Char) : List Char :=
  if c = '&' then "&amp;".data
  else if c = '<' then "&lt;".data
  else if c = '>' then "&gt;".data
  else [c]

/-- The per-character action of `escapeHtml` followed by `newlineToBr`. -/
def msgChar (c : Char) : List Char :=
  if c = '&' then "&amp;".data
  else if c = '<' then "&lt;".data
  else if c = '>' then "&gt;".data
  else if c = '\n' then "<br/>".data
  else [c]

/-- Number of positions of `l` at which the pattern `p` starts an occurrence
(as a prefix of the tail at that position). -/
def countSub (p : List Char) : List Char → Nat
  | [] => 0
  | c :: rest => (if p <+: c :: rest then 1 else 0) + countSub p rest

/-- No nonempty suffix of `a` of length below `n` contains the character `<`. -/
def ltSafe (n : Nat) (a : List Char) : Prop :=
  ∀ s, s <:+ a → s ≠ [] → s.length < n → '<' ∉ s

theorem repl_append (pat : Char) (toStr l₁ l₂ : List Char) :
    repl pat toStr (l₁ ++ l₂) = repl pat toStr l₁ ++ repl pat toStr l₂ := by
  induction l₁ with
  | nil => rfl
  | cons c rest ih => simp [repl, ih, List.append_assoc]

theorem applyMap_append (f : Char → List Char) (l₁ l₂ : List Char) :
    applyMap f (l₁ ++ l₂) = applyMap f l₁ ++ applyMap f l₂ := by
  induction l₁ with
  | nil => rfl
  | cons c rest ih => simp [applyMap, ih, List.append_assoc]

theorem escChar_step (c : Char) :
    repl '>' "&gt;".data (repl '<' "&lt;".data (if c = '&' then "&amp;".data else [c]))
      = escChar c := by
  by_cases h1 : c = '&'
  · subst h1; decide
  · by_cases h2 : c = '<'
    · subst h2; decide
    · by_cases h3 : c = '>'
      · subst h3; decide
      · simp [repl, escChar, h1, h2, h3]

theorem escapeHtmlData_cons (c : Char) (rest : List Char) :
    escapeHtmlData (c :: rest) = escChar c ++ escapeHtmlData rest := by
  unfold escapeHtmlData
  have h1 : repl '&' "&amp;".data (c :: rest)
      = (if c = '&' then "&amp;".data else [c]) ++ repl '&' "&amp;".data rest := rfl
  rw [h1, repl_append, repl_append, escChar_step]

theorem escapeHtmlData_eq_applyMap (l : List Char) :
    escapeHtmlData l = applyMap escChar l := by
  induction l with
  | nil => rfl
  | cons c rest ih => rw [escapeHtmlData_cons, ih]; rfl

theorem msgChar_step (c : Char) :
    repl '\n' "<br/>".data (escChar c) = msgChar c := by
  unfold escChar msgChar
  by_cases h1 : c = '&'
  · subst h1; decide
  · by_cases h2 : c = '<'
    · subst h2; decide
    · by_cases h3 : c = '>'
      · subst h3; decide
      · by_cases h4 : c = '\n'
        · subst h4; simp [repl, h1, h2, h3]
        · simp [repl, h1, h2, h3, h4]

theorem safeMessage_eq_applyMap (l : List Char) :
    newlineToBr (escapeHtmlData l) = applyMap msgChar l := by
  induction l with
  | nil => rfl
  | cons c rest ih =>
      unfold newlineToBr at *
      rw [escapeHtmlData_cons, repl_append, msgChar_step, ih]
      rfl

theorem countSub_eq_zero_iff {p : List Char} (hp : p ≠ []) (l : List Char) :
    countSub p l = 0 ↔ ¬ p <:+: l := by
  induction l with
  | nil =>
      simp only [countSub]
      constructor
      · intro _ hinf
        rcases hinf with ⟨s, t, ht⟩
        simp only [List.append_eq_nil, List.append_assoc] at ht
        exact hp ht.2.1
      · intro _; trivial
  | cons c rest ih =>
      by_cases hpre : p <+: c :: rest
      · have hinf : p <:+: c :: rest := by
          rcases hpre with ⟨t, ht⟩
          exact ⟨[], t, by simpa using ht⟩
        simp [countSub, if_pos hpre, hinf]
      · rw [show countSub p (c :: rest) = (if p <+: c :: rest then 1 else 0) + countSub p rest
              from rfl]
        rw [if_neg hpre, Nat.zero_add, ih, List.infix_cons_iff]
        simp [hpre]

theorem prefix_append_cases {α : Type*} {p u v : List α} (h : p <+: u ++ v) :
    p <+: u ∨ ∃ p₂, p = u ++ p₂ ∧ p₂ <+: v := by
  induction u generalizing p with
  | nil =>
      exact Or.inr ⟨p, by simp, by simpa using h⟩
  | cons x u' ih =>
      cases p with
      | nil => exact Or.inl ⟨x :: u', rfl⟩
      | cons y p' =>
          rw [List.cons_append] at h
          rcases List.cons_prefix_cons.mp h with ⟨rfl, h'⟩
          rcases ih h' with h1 | ⟨p₂, rfl, h2⟩
          · exact Or.inl (List.cons_prefix_cons.mpr ⟨rfl, h1⟩)
          · exact Or.inr ⟨p₂, by simp, h2⟩

theorem suffix_append_cases {α : Type*} {s a b : List α} (h : s <:+ a ++ b) :
    s <:+ b ∨ ∃ s₁, s₁ <:+ a ∧ s = s₁ ++ b := by
  have h' : s.reverse <+: b.reverse ++ a.reverse := by
    have h1 := List.reverse_prefix.mpr h
    simpa [List.reverse_append] using h1
  rcases prefix_append_cases h' with h1 | ⟨p₂, hp₂, h2⟩
  · exact Or.inl ( List.reverse_prefix.mp h1)
  · right
    have h3 := List.reverse_suffix.mpr h2
    have h4 : p₂.reverse <:+ a := by simpa using h3
    refine ⟨p₂.reverse, h4, ?_⟩
    have h5 := congrArg List.reverse hp₂
    simpa [List.reverse_append] using h5

theorem countSub_append (p : List Char) (hp : p ≠ []) :
    ∀ a b : List Char,
      (∀ p₁ p₂, p = p₁ ++ p₂ → p₁ ≠ [] → p₂ ≠ [] → ¬(p₁ <:+ a ∧ p₂ <+: b)) →
      countSub p (a ++ b) = countSub p a + countSub p b := by
  intro a
  induction a with
  | nil => intro b _; simp [countSub]
  | cons x a' ih =>
      intro b h
      have hx : (p <+: (x :: a') ++ b) ↔ (p <+: x :: a') := by
        constructor
        · intro hpre
          rcases prefix_append_cases hpre with h1 | ⟨p₂, hpeq, h2⟩
          · exact h1
          · by_cases hnil : p₂ = []
            · subst hnil
              rw [hpeq, List.append_nil]
            · exact absurd ⟨List.suffix_refl _, h2⟩
                (h (x :: a') p₂ hpeq (by simp) hnil)
        · intro hpre
          exact hpre.trans (List.prefix_append _ _)
      have ih' := ih b (fun p₁ p₂ he h1 h2 hc =>
        h p₁ p₂ he h1 h2 ⟨hc.1.trans (List.suffix_cons x a'), hc.2⟩)
      have e1 : countSub p ((x :: a') ++ b)
          = (if p <+: (x :: a') ++ b then 1 else 0) + countSub p (a' ++ b) := rfl
      have e2 : countSub p (x :: a')
          = (if p <+: x :: a' then 1 else 0) + countSub p a' := rfl
      rw [e1, e2, if_congr hx rfl rfl, ih']
      omega

theorem ltSafe_mono {m n : Nat} (h : m ≤ n) {a : List Char} (ha : ltSafe n a) :
    ltSafe m a :=
  fun s h1 h2 h3 => ha s h1 h2 (lt_of_lt_of_le h3 h)

theorem ltSafe_of_not_mem {a : List Char} (h : '<' ∉ a) (n : Nat) : ltSafe n a :=
  fun s hs _ _ hm => h (hs.sublist.subset hm)

theorem ltSafe_of_drop (n : Nat) (a : List Char)
    (h : ∀ k, 0 < k → k < n → '<' ∉ a.drop (a.length - k)) : ltSafe n a := by
  intro s hs hne hlen
  obtain ⟨t, ht⟩ := hs
  have hdrop : s = a.drop (a.length - s.length) := by
    rw [← ht, List.length_append, Nat.add_sub_cancel, List.drop_left]
  rw [hdrop]
  exact h s.length (List.length_pos.mpr hne) hlen

/-- Additivity of `countSub` under append, when the pattern starts with `<`
and no short nonempty suffix of the left part contains `<`. -/
theorem countSub_append_lt (p : List Char) (hhead : p.head? = some '<')
    {a : List Char} (ha : ltSafe p.length a) (b : List Char) :
    countSub p (a ++ b) = countSub p a + countSub p b := by
  have hp : p ≠ [] := by
    cases p with
    | nil => simp at hhead
    | cons c q => simp
  refine countSub_append p hp a b ?_
  rintro p₁ p₂ he h1 h2 ⟨hs, _⟩
  have hlen : p₁.length < p.length := by
    rw [he, List.length_append]
    cases p₂ with
    | nil => exact absurd rfl h2
    | cons z q => simp
  have hmem : '<' ∈ p₁ := by
    cases p₁ with
    | nil => exact absurd rfl h1
    | cons z q =>
        have hz : z = '<' := by
          rw [he] at hhead
          simpa using hhead
        simp [hz]
  exact (ha p₁ hs h1 hlen) hmem

theorem suffix_singleton {α : Type*} {s : List α} {c : α} (hs : s <:+ [c]) :
    s = [] ∨ s = [c] := by
  obtain ⟨t, ht⟩ := hs
  cases t with
  | nil => right; simpa using ht
  | cons z t' =>
      left
      have hlen := congrArg List.length ht
      simp [List.length_append] at hlen
      exact hlen.2

theorem ltSafe_msgChar (c : Char) : ltSafe 5 (msgChar c) := by
  unfold msgChar
  by_cases h1 : c = '&'
  · subst h1
    simp only [if_pos rfl]
    exact ltSafe_of_not_mem (by decide) 5
  · by_cases h2 : c = '<'
    · subst h2
      simp only [h1, if_neg, if_pos rfl]
      exact ltSafe_of_not_mem (by decide) 5
    · by_cases h3 : c = '>'
      · subst h3
        simp only [h1, h2, if_neg, if_pos rfl]
        exact ltSafe_of_not_mem (by decide) 5
      · by_cases h4 : c = '\n'
        · subst h4
          simp only [h1, h2, h3, if_neg, if_pos rfl]
          refine ltSafe_of_drop 5 _ ?_
          intro k hk1 hk2
          interval_cases k <;> decide
        · simp only [h1, h2, h3, h4, if_neg]
          intro s hs hne _ hm
          rcases suffix_singleton hs with rfl | rfl
          · exact hne rfl
          · simp at hm
            exact h2 hm.symm

theorem applyMap_msgChar_ltSafe (l : List Char) : ltSafe 5 (applyMap msgChar l) := by
  induction l with
  | nil =>
      intro s hs hne _
      obtain ⟨t, ht⟩ := hs
      rcases List.append_eq_nil.mp ht with ⟨_, rfl⟩
      exact absurd rfl hne
  | cons c rest ih =>
      intro s hs hne hlen hm
      rcases suffix_append_cases (a := msgChar c) hs with h1 | ⟨s₁, hs₁, rfl⟩
      · exact ih s h1 hne hlen hm
      · rcases List.mem_append.mp hm with hm1 | hm2
        · have hne1 : s₁ ≠ [] := by
            rintro rfl
            simp at hm1
          have hlen1 : s₁.length < 5 := by
            rw [List.length_append] at hlen
            omega
          exact ltSafe_msgChar c s₁ hs₁ hne1 hlen1 hm1
        · have hFne : applyMap msgChar rest ≠ [] := by
            rintro he
            rw [he] at hm2
            simp at hm2
          have hFlen : (applyMap msgChar rest).length < 5 := by
            rw [List.length_append] at hlen
            omega
          exact ih _ (List.suffix_refl _) hFne hFlen hm2

theorem escChar_not_lt (c : Char) : '<' ∉ escChar c := by
  unfold escChar
  by_cases h1 : c = '&'
  · subst h1; decide
  · by_cases h2 : c = '<'
    · subst h2; decide
    · by_cases h3 : c = '>'
      · subst h3; decide
      · simp [h1, h2, h3]
        intro he
        exact h2 he.symm

theorem escapeHtmlData_not_lt (l : List Char) : '<' ∉ escapeHtmlData l := by
  rw [escapeHtmlData_eq_applyMap]
  induction l with
  | nil => simp [applyMap]
  | cons c rest ih =>
      simp only [applyMap, List.mem_append]
      rintro (hm | hm)
      · exact escChar_not_lt c hm
      · exact ih hm

theorem countSub_long_singleton {p : List Char} (h : 2 ≤ p.length) (c : Char) :
    countSub p [c] = 0 := by
  have : ¬ p <+: [c] := by
    intro hpre
    have := hpre.length_le
    simp at this
    omega
  simp [countSub, this]

theorem countSub_br_msgChar (c : Char) :
    countSub "<br/>".data (msgChar c) = if c = '\n' then 1 else 0 := by
  by_cases h4 : c = '\n'
  · subst h4; decide
  · rw [if_neg h4]
    unfold msgChar
    by_cases h1 : c = '&'
    · subst h1; decide
    · by_cases h2 : c = '<'
      · subst h2; decide
      · by_cases h3 : c = '>'
        · subst h3; decide
        · simp only [h1, h2, h3, h4, if_neg]
          exact countSub_long_singleton (by decide) c

theorem countSub_sc_msgChar (c : Char) : countSub "<sc".data (msgChar c) = 0 := by
  unfold msgChar
  by_cases h1 : c = '&'
  · subst h1; decide
  · by_cases h2 : c = '<'
    · subst h2; decide
    · by_cases h3 : c = '>'
      · subst h3; decide
      · by_cases h4 : c = '\n'
        · subst h4; decide
        · simp only [h1, h2, h3, h4, if_neg]
          exact countSub_long_singleton (by decide) c

theorem countSub_br_applyMap (l : List Char) :
    countSub "<br/>".data (applyMap msgChar l) = l.count '\n' := by
  induction l with
  | nil => simp [applyMap, countSub]
  | cons c rest ih =>
      have hstep : countSub "<br/>".data (msgChar c ++ applyMap msgChar rest)
          = countSub "<br/>".data (msgChar c)
            + countSub "<br/>".data (applyMap msgChar rest) :=
        countSub_append_lt "<br/>".data (by rfl) (ltSafe_msgChar c) _
      show countSub "<br/>".data (msgChar c ++ applyMap msgChar rest) = _
      rw [hstep, countSub_br_msgChar, ih, List.count_cons]
      by_cases h : c = '\n' <;> (simp [h]; try omega)

theorem countSub_sc_applyMap (l : List Char) :
    countSub "<sc".data (applyMap msgChar l) = 0 := by
  induction l with
  | nil => simp [applyMap, countSub]
  | cons c rest ih =>
      have hstep : countSub "<sc".data (msgChar c ++ applyMap msgChar rest)
          = countSub "<sc".data (msgChar c)
            + countSub "<sc".data (applyMap msgChar rest) :=
        countSub_append_lt "<sc".data (by rfl) (ltSafe_mono (by decide) (ltSafe_msgChar c)) _
      show countSub "<sc".data (msgChar c ++ applyMap msgChar rest) = 0
      rw [hstep, countSub_sc_msgChar c, ih]

theorem countSub_not_lt_eq_zero {p l : List Char} (hp : '<' ∈ p) (h : '<' ∉ l) :
    countSub p l = 0 := by
  have hpne : p ≠ [] := by
    rintro rfl
    simp at hp
  rw [countSub_eq_zero_iff hpne]
  intro hinf
  exact h (hinf.sublist.subset hp)

theorem applyMap_escChar_not_lt (l : List Char) : '<' ∉ applyMap escChar l := by
  have h := escapeHtmlData_not_lt l
  rw [escapeHtmlData_eq_applyMap] at h
  exact h

theorem countSub_sc_escape (l : List Char) :
    countSub "<sc".data (applyMap escChar l) = 0 :=
  countSub_not_lt_eq_zero (by decide) (applyMap_escChar_not_lt l)

theorem ltSafe_concrete3 (a : List Char) (h1 : '<' ∉ a.drop (a.length - 1))
    (h2 : '<' ∉ a.drop (a.length - 2)) : ltSafe 3 a := by
  refine ltSafe_of_drop 3 a ?_
  intro k hk1 hk2
  interval_cases k
  · exact h1
  · exact h2

theorem countSub_segments_zero (p : List Char) (hhead : p.head? = some '<') :
    ∀ segs : List (List Char), (∀ seg ∈ segs, ltSafe p.length seg) →
      (∀ seg ∈ segs, countSub p seg = 0) → countSub p segs.flatten = 0 := by
  intro segs
  induction segs with
  | nil =>
      intro _ _
      simp [countSub]
  | cons s rest ih =>
      intro h h0
      have hs : ltSafe p.length s := h s (by simp)
      have hrest := ih (fun seg hseg => h seg (by simp [hseg]))
        (fun seg hseg => h0 seg (by simp [hseg]))
      have hflat : (s :: rest).flatten = s ++ rest.flatten := rfl
      rw [hflat, countSub_append_lt p hhead hs _, hrest, h0 s (by simp)]

/-- `htmlResend` as the concatenation of its template and interpolation
segments, with the escaped fields in `applyMap` form. -/
theorem htmlResend_segments (sub : Submission) :
    htmlResend sub =
      ["\n      <h2>Easy Way Loan - New Submission</h2>\n      <p><strong>Name:</strong> ".data,
        applyMap escChar (sub.name.getD "").data,
        "</p>\n      <p><strong>Email:</strong> ".data,
        applyMap escChar (sub.email.getD "").data,
        "</p>\n      <p><strong>Phone:</strong> ".data,
        applyMap escChar (strOr sub.phone "-").data,
        "</p>\n      <p><strong>Loan Type:</strong> ".data,
        applyMap escChar (strOr sub.loanType "-").data,
        "</p>\n      <p><strong>Message:</strong></p>\n      ".data,
        "<div>".data,
        applyMap msgChar (sub.message.getD "").data,
        "</div>".data,
        "\n      <p><small>Submitted from: ".data,
        applyMap escChar (strOr sub.sourcePage "Website").data,
        "</small></p>\n    ".data].flatten := by
  unfold htmlResend messageSectionResend
  rw [safeMessage_eq_applyMap]
  simp only [escapeHtmlData_eq_applyMap]
  simp [List.flatten, List.append_assoc]

theorem no_sc_htmlResend (sub : Submission) :
    countSub "<sc".data (htmlResend sub) = 0 := by
  rw [htmlResend_segments]
  refine countSub_segments_zero "<sc".data (by rfl) _ ?_ ?_
  · intro seg hseg
    simp only [List.mem_cons, List.not_mem_nil, or_false] at hseg
    rcases hseg with rfl | rfl | rfl | rfl | rfl | rfl | rfl | rfl | rfl | rfl | rfl | rfl | rfl | rfl | rfl
    · exact ltSafe_concrete3 _ (by decide) (by decide)
    · exact ltSafe_of_not_mem (applyMap_escChar_not_lt _) _
    · exact ltSafe_concrete3 _ (by decide) (by decide)
    · exact ltSafe_of_not_mem (applyMap_escChar_not_lt _) _
    · exact ltSafe_concrete3 _ (by decide) (by decide)
    · exact ltSafe_of_not_mem (applyMap_escChar_not_lt _) _
    · exact ltSafe_concrete3 _ (by decide) (by decide)
    · exact ltSafe_of_not_mem (applyMap_escChar_not_lt _) _
    · exact ltSafe_concrete3 _ (by decide) (by decide)
    · exact ltSafe_concrete3 _ (by decide) (by decide)
    · exact ltSafe_mono (by decide) (applyMap_msgChar_ltSafe _)
    · exact ltSafe_concrete3 _ (by decide) (by decide)
    · exact ltSafe_concrete3 _ (by decide) (by decide)
    · exact ltSafe_of_not_mem (applyMap_escChar_not_lt _) _
    · exact ltSafe_concrete3 _ (by decide) (by decide)
  · intro seg hseg
    simp only [List.mem_cons, List.not_mem_nil, or_false] at hseg
    rcases hseg with rfl | rfl | rfl | rfl | rfl | rfl | rfl | rfl | rfl | rfl | rfl | rfl | rfl | rfl | rfl
    · decide
    · exact countSub_sc_escape _
    · decide
    · exact countSub_sc_escape _
    · decide
    · exact countSub_sc_escape _
    · decide
    · exact countSub_sc_escape _
    · decide
    · decide
    · exact countSub_sc_applyMap _
    · decide
    · decide
    · exact countSub_sc_escape _
    · decide

theorem msgSection_infix_htmlResend (sub : Submission) :
    messageSectionResend sub <:+: htmlResend sub := by
  refine ⟨"\n      <h2>Easy Way Loan - New Submission</h2>\n      <p><strong>Name:</strong> ".data
      ++ escapeHtmlData (sub.name.getD "").data
      ++ "</p>\n      <p><strong>Email:</strong> ".data
      ++ escapeHtmlData (sub.email.getD "").data
      ++ "</p>\n      <p><strong>Phone:</strong> ".data
      ++ escapeHtmlData (strOr sub.phone "-").data
      ++ "</p>\n      <p><strong>Loan Type:</strong> ".data
      ++ escapeHtmlData (strOr sub.loanType "-").data
      ++ "</p>\n      <p><strong>Message:</strong></p>\n      ".data,
    "\n      <p><small>Submitted from: ".data
      ++ escapeHtmlData (strOr sub.sourcePage "Website").data
      ++ "</small></p>\n    ".data, ?_⟩
  simp [htmlResend, List.append_assoc]

theorem ltSafe_concrete5 (a : List Char) (h1 : '<' ∉ a.drop (a.length - 1))
    (h2 : '<' ∉ a.drop (a.length - 2)) (h3 : '<' ∉ a.drop (a.length - 3))
    (h4 : '<' ∉ a.drop (a.length - 4)) : ltSafe 5 a := by
  refine ltSafe_of_drop 5 a ?_
  intro k hk1 hk2
  interval_cases k
  · exact h1
  · exact h2
  · exact h3
  · exact h4

theorem countSub_br_messageSection (sub : Submission) :
    countSub "<br/>".data (messageSectionResend sub)
      = (sub.message.getD "").data.count '\n' := by
  unfold messageSectionResend
  rw [safeMessage_eq_applyMap, List.append_assoc]
  rw [countSub_append_lt "<br/>".data (by rfl)
      (ltSafe_concrete5 _ (by decide) (by decide) (by decide) (by decide)) _]
  rw [countSub_append_lt "<br/>".data (by rfl) (applyMap_msgChar_ltSafe _) _]
  rw [countSub_br_applyMap]
  have h1 : countSub "<br/>".data "<div>".data = 0 := by decide
  have h2 : countSub "<br/>".data "</div>".data = 0 := by decide
  rw [h1, h2]
  omega

theorem append_ne_of_four {a t : List Char} (b : List Char) (hlen : 4 < a.length)
    (hne : a[4]? ≠ t[4]?) : a ++ b ≠ t := by
  intro h
  apply hne
  rw [← h, List.getElem?_append, if_pos hlen]

theorem subjectSmtp_ne_initial (sp : Option String) (n : String) :
    subjectSmtp sp n ≠ "New Submission Received" := by
  unfold subjectSmtp
  split_ifs <;>
  · intro h
    have hd := congrArg String.data h
    rw [String.data_append] at hd
    exact append_ne_of_four _ (by decide) (by decide) hd

theorem subjectResend_eq_smtp (sp : Option String) (n : String) :
    subjectResend sp n = subjectSmtp sp n := by
  cases sp with
  | none => rfl
  | some s =>
      by_cases h1 : s = "Application Form"
      · subst h1; rfl
      · by_cases h2 : s = "Contact Form"
        · subst h2; rfl
        · by_cases h3 : s = "Home Contact"
          · subst h3; rfl
          · unfold subjectSmtp subjectResend
            simp only [Option.some.injEq, h1, h2, h3, if_false]
            split
            · rename_i heq; exact absurd (by injection heq) h1
            · rename_i heq; exact absurd (by injection heq) h2
            · rename_i heq; exact absurd (by injection heq) h3
            · rfl

theorem applyMap_escChar_id {l : List Char} (h : ∀ c ∈ l, c ≠ '&' ∧ c ≠ '<' ∧ c ≠ '>') :
    applyMap escChar l = l := by
  induction l with
  | nil => rfl
  | cons c rest ih =>
      obtain ⟨h1, h2, h3⟩ := h c (by simp)
      simp [applyMap, escChar, h1, h2, h3, ih (fun c hc => h c (by simp [hc]))]

theorem escapeHtml_id {e : String} (h : ∀ c ∈ e.data, c ≠ '&' ∧ c ≠ '<' ∧ c ≠ '>') :
    escapeHtml e = e := by
  unfold escapeHtml
  rw [escapeHtmlData_eq_applyMap, applyMap_escChar_id h]

theorem sc_of_script {l : List Char} (h : "<script>".data <:+: l) :
    "<sc".data <:+: l := by
  rcases h with ⟨s', t', hst⟩
  have hpre : "<script>".data = "<sc".data ++ "ript>".data := by decide
  exact ⟨s', "ript>".data ++ t', by rw [← hst, hpre]; simp [List.append_assoc]⟩

/-!
The claims.

Each claim of the specification is settled by one theorem below; corrected
claims carry in addition a counterexample theorem refuting the original
wording at a concrete input.
-/

/-- C1: for every submission in which a required field (name, email, and the
policy third field: phone in the SMTP variant, message in the Resend variant)
is absent or empty, the handler responds with success=false and HTTP status
400, and the notifier is never invoked: no transport call is made. -/
theorem c1_missing_required_fields (env : Env) (sub : Submission) (o : SendOutcome) :
    ((sub.name = none ∨ sub.name = some "" ∨ sub.email = none ∨ sub.email = some ""
        ∨ sub.phone = none ∨ sub.phone = some "") →
      (handlerSmtp env sub o).1.status = 400 ∧ (handlerSmtp env sub o).1.success = false
        ∧ (handlerSmtp env sub o).2 = [])
    ∧ ((sub.name = none ∨ sub.name = some "" ∨ sub.email = none ∨ sub.email = some ""
        ∨ sub.message = none ∨ sub.message = some "") →
      (handlerResend env sub o).1.status = 400 ∧ (handlerResend env sub o).1.success = false
        ∧ (handlerResend env sub o).2 = []) := by
  constructor
  · intro h
    rcases h with h | h | h | h | h | h <;> simp [handlerSmtp, h, truthy]
  · intro h
    rcases h with h | h | h | h | h | h <;> simp [handlerResend, h, truthy]

/-- Witness for C1: a concrete submission with `name` absent is rejected with
400 by both variants and no transport call is made. -/
theorem c1_missing_required_fields_witness :
    (({ name := none, email := some "a@x.com", phone := some "999", message := some "hi",
        loanType := none, sourcePage := none } : Submission).name = none)
    ∧ ((handlerSmtp { smtpUser := some "u@h", sendToEmail := some "t@h", sendToEmailTest := none }
          { name := none, email := some "a@x.com", phone := some "999", message := some "hi",
            loanType := none, sourcePage := none } (SendOutcome.ok none)).1.status = 400
       ∧ (handlerSmtp { smtpUser := some "u@h", sendToEmail := some "t@h", sendToEmailTest := none }
          { name := none, email := some "a@x.com", phone := some "999", message := some "hi",
            loanType := none, sourcePage := none } (SendOutcome.ok none)).1.success = false
       ∧ (handlerSmtp { smtpUser := some "u@h", sendToEmail := some "t@h", sendToEmailTest := none }
          { name := none, email := some "a@x.com", phone := some "999", message := some "hi",
            loanType := none, sourcePage := none } (SendOutcome.ok none)).2 = [])
    ∧ ((handlerResend { smtpUser := some "u@h", sendToEmail := some "t@h", sendToEmailTest := none }
          { name := none, email := some "a@x.com", phone := some "999", message := some "hi",
            loanType := none, sourcePage := none } (SendOutcome.ok none)).1.status = 400
       ∧ (handlerResend { smtpUser := some "u@h", sendToEmail := some "t@h", sendToEmailTest := none }
          { name := none, email := some "a@x.com", phone := some "999", message := some "hi",
            loanType := none, sourcePage := none } (SendOutcome.ok none)).1.success = false
       ∧ (handlerResend { smtpUser := some "u@h", sendToEmail := some "t@h", sendToEmailTest := none }
          { name := none, email := some "a@x.com", phone := some "999", message := some "hi",
            loanType := none, sourcePage := none } (SendOutcome.ok none)).2 = []) :=
  ⟨rfl,
   (c1_missing_required_fields
      { smtpUser := some "u@h", sendToEmail := some "t@h", sendToEmailTest := none }
      { name := none, email := some "a@x.com", phone := some "999", message := some "hi",
        loanType := none, sourcePage := none } (SendOutcome.ok none)).1 (Or.inl rfl),
   (c1_missing_required_fields
      { smtpUser := some "u@h", sendToEmail := some "t@h", sendToEmailTest := none }
      { name := none, email := some "a@x.com", phone := some "999", message := some "hi",
        loanType := none, sourcePage := none } (SendOutcome.ok none)).2 (Or.inl rfl)⟩

/-- C2 counterexample: the SMTP variant escapes nothing: a valid submission
whose message contains "<script>" puts the raw "<script>" tag into the
outgoing HTML body. -/
theorem c2_smtp_unescaped_counterexample :
    validSmtpB
      { name := some "Asha", email := some "a@x.com", phone := some "999",
        message := some "<script>alert(1)</script>", loanType := none,
        sourcePage := none } = true
    ∧ "<script>".data <:+: htmlSmtp
      { name := some "Asha", email := some "a@x.com", phone := some "999",
        message := some "<script>alert(1)</script>", loanType := none,
        sourcePage := none } := by
  constructor
  · decide
  · decide

/-- C2 (amended): in the Resend variant every interpolated user string passes
through escapeHtml (escaping &, <, >), so for every valid submission whose
message contains "<script>" the outgoing HTML body (the html of the single
transport call) contains "&lt;script&gt;" and never a raw "<script>" tag.
The SMTP variant interpolates user strings without any escaping, see the
counterexample. -/
theorem c2_resend_escaping_round_trip (env : Env) (sub : Submission) (o : SendOutcome)
    (m : String) (hv : validResendB sub = true) (hm : sub.message = some m)
    (hs : "<script>".data <:+: m.data) :
    (handlerResend env sub o).2.map (fun c => c.html) = [htmlResend sub]
      ∧ "&lt;script&gt;".data <:+: htmlResend sub
      ∧ ¬ "<script>".data <:+: htmlResend sub := by
  refine ⟨?_, ?_, ?_⟩
  · simp only [validResendB, Bool.and_eq_true] at hv
    obtain ⟨⟨hn, he⟩, hg⟩ := hv
    cases o <;> simp [handlerResend, hn, he, hg]
  · rcases hs with ⟨u, v, huv⟩
    have hA : applyMap msgChar "<script>".data = "&lt;script&gt;".data := by decide
    have hsafe : newlineToBr (escapeHtmlData (sub.message.getD "").data)
        = applyMap msgChar u ++ "&lt;script&gt;".data ++ applyMap msgChar v := by
      rw [hm]
      simp only [Option.getD_some]
      rw [safeMessage_eq_applyMap, ← huv, applyMap_append, applyMap_append, hA]
    have h1 : "&lt;script&gt;".data <:+: messageSectionResend sub := by
      unfold messageSectionResend
      rw [hsafe]
      exact ⟨"<div>".data ++ applyMap msgChar u,
             applyMap msgChar v ++ "</div>".data, by simp [List.append_assoc]⟩
    exact h1.trans (msgSection_infix_htmlResend sub)
  · intro hinf
    have hsc : "<sc".data <:+: htmlResend sub := sc_of_script hinf
    have h0 := no_sc_htmlResend sub
    rw [countSub_eq_zero_iff (by decide) _] at h0
    exact h0 hsc

/-- Witness for C2 (amended) at a concrete submission whose message embeds a
script tag after a newline. -/
theorem c2_resend_escaping_round_trip_witness :
    validResendB
      { name := some "Asha", email := some "a@x.com", phone := none,
        message := some "hi\n<script>x</script>", loanType := none,
        sourcePage := some "Contact Form" } = true
    ∧ ({ name := some "Asha", email := some "a@x.com", phone := none,
         message := some "hi\n<script>x</script>", loanType := none,
         sourcePage := some "Contact Form" } : Submission).message
        = some "hi\n<script>x</script>"
    ∧ "<script>".data <:+: "hi\n<script>x</script>".data
    ∧ ("&lt;script&gt;".data <:+: htmlResend
        { name := some "Asha", email := some "a@x.com", phone := none,
          message := some "hi\n<script>x</script>", loanType := none,
          sourcePage := some "Contact Form" }
       ∧ ¬ "<script>".data <:+: htmlResend
        { name := some "Asha", email := some "a@x.com", phone := none,
          message := some "hi\n<script>x</script>", loanType := none,
          sourcePage := some "Contact Form" }) :=
  ⟨by decide, rfl, by decide,
   (c2_resend_escaping_round_trip
      { smtpUser := some "u@h", sendToEmail := some "t@h", sendToEmailTest := none }
      { name := some "Asha", email := some "a@x.com", phone := none,
        message := some "hi\n<script>x</script>", loanType := none,
        sourcePage := some "Contact Form" }
      (SendOutcome.ok none) "hi\n<script>x</script>" (by decide) rfl (by decide)).2⟩

/-- C3 counterexample: on a transport failure the SMTP variant responds 500
with the transport error message in the body, not "Server error": the
transport detail leaks to the caller. -/
theorem c3_smtp_error_leak_counterexample :
    (handlerSmtp
      { smtpUser := some "u@h", sendToEmail := some "t@h", sendToEmailTest := none }
      { name := some "Asha", email := some "a@x.com", phone := some "999",
        message := some "Need a loan", loanType := none, sourcePage := none }
      (SendOutcome.err "connect ECONNREFUSED 127.0.0.1:587")).1.status = 500
    ∧ (handlerSmtp
      { smtpUser := some "u@h", sendToEmail := some "t@h", sendToEmailTest := none }
      { name := some "Asha", email := some "a@x.com", phone := some "999",
        message := some "Need a loan", loanType := none, sourcePage := none }
      (SendOutcome.err "connect ECONNREFUSED 127.0.0.1:587")).1.error
        = some "connect ECONNREFUSED 127.0.0.1:587"
    ∧ (handlerSmtp
      { smtpUser := some "u@h", sendToEmail := some "t@h", sendToEmailTest := none }
      { name := some "Asha", email := some "a@x.com", phone := some "999",
        message := some "Need a loan", loanType := none, sourcePage := none }
      (SendOutcome.err "connect ECONNREFUSED 127.0.0.1:587")).1.error
        ≠ some "Server error" := by
  refine ⟨rfl, rfl, by decide⟩

/-- C3 (amended): for every valid submission on which the send rejects, the
Resend variant responds HTTP 500 with exactly the body
{success:false, error:"Server error"} and no transport detail; the SMTP
variant responds HTTP 500 with {success:false, error: err.message}, leaking
the transport error message. -/
theorem c3_transport_failure_response (env : Env) (sub : Submission) (m : String) :
    (validResendB sub = true →
      (handlerResend env sub (SendOutcome.err m)).1
        = { status := 500, success := false, error := some "Server error", id := none })
    ∧ (validSmtpB sub = true →
      (handlerSmtp env sub (SendOutcome.err m)).1
        = { status := 500, success := false, error := some m, id := none }) := by
  constructor
  · intro hv
    simp only [validResendB, Bool.and_eq_true] at hv
    obtain ⟨⟨hn, he⟩, hg⟩ := hv
    simp [handlerResend, hn, he, hg]
  · intro hv
    simp only [validSmtpB, Bool.and_eq_true] at hv
    obtain ⟨⟨hn, he⟩, hp⟩ := hv
    simp [handlerSmtp, hn, he, hp]

/-- Witness for C3 (amended) at a concrete submission valid for both
variants and a concrete transport error. -/
theorem c3_transport_failure_response_witness :
    validResendB
      { name := some "Asha", email := some "a@x.com", phone := some "999",
        message := some "Need a loan", loanType := none, sourcePage := none } = true
    ∧ validSmtpB
      { name := some "Asha", email := some "a@x.com", phone := some "999",
        message := some "Need a loan", loanType := none, sourcePage := none } = true
    ∧ (handlerResend
        { smtpUser := some "u@h", sendToEmail := some "t@h", sendToEmailTest := none }
        { name := some "Asha", email := some "a@x.com", phone := some "999",
          message := some "Need a loan", loanType := none, sourcePage := none }
        (SendOutcome.err "boom")).1
        = { status := 500, success := false, error := some "Server error", id := none }
    ∧ (handlerSmtp
        { smtpUser := some "u@h", sendToEmail := some "t@h", sendToEmailTest := none }
        { name := some "Asha", email := some "a@x.com", phone := some "999",
          message := some "Need a loan", loanType := none, sourcePage := none }
        (SendOutcome.err "boom")).1
        = { status := 500, success := false, error := some "boom", id := none } :=
  ⟨by decide, by decide,
   (c3_transport_failure_response
      { smtpUser := some "u@h", sendToEmail := some "t@h", sendToEmailTest := none }
      { name := some "Asha", email := some "a@x.com", phone := some "999",
        message := some "Need a loan", loanType := none, sourcePage := none }
      "boom").1 (by decide),
   (c3_transport_failure_response
      { smtpUser := some "u@h", sendToEmail := some "t@h", sendToEmailTest := none }
      { name := some "Asha", email := some "a@x.com", phone := some "999",
        message := some "Need a loan", loanType := none, sourcePage := none }
      "boom").2 (by decide)⟩

/-- C4: for every valid submission the derived email subject is exactly
"New Loan Application from {name}" when sourcePage is "Application Form",
"New Contact Request from {name}" when it is "Contact Form", "New Enquiry
from {name}" when it is "Home Contact", and "New Enquiry from {name}" for
any other value including absent, in both variants. -/
theorem c4_subject_mapping (env : Env) (sub : Submission) (o : SendOutcome) (n : String)
    (hn : sub.name = some n) :
    (validSmtpB sub = true →
      (handlerSmtp env sub o).2.map (fun c => c.subject)
        = [if sub.sourcePage = some "Application Form" then "New Loan Application from " ++ n
           else if sub.sourcePage = some "Contact Form" then "New Contact Request from " ++ n
           else if sub.sourcePage = some "Home Contact" then "New Enquiry from " ++ n
           else "New Enquiry from " ++ n])
    ∧ (validResendB sub = true →
      (handlerResend env sub o).2.map (fun c => c.subject)
        = [if sub.sourcePage = some "Application Form" then "New Loan Application from " ++ n
           else if sub.sourcePage = some "Contact Form" then "New Contact Request from " ++ n
           else if sub.sourcePage = some "Home Contact" then "New Enquiry from " ++ n
           else "New Enquiry from " ++ n]) := by
  constructor
  · intro hv
    simp only [validSmtpB, Bool.and_eq_true] at hv
    obtain ⟨⟨hname, he⟩, hp⟩ := hv
    rw [hn] at hname
    cases o <;> simp [handlerSmtp, hname, he, hp, hn, subjectSmtp]
  · intro hv
    simp only [validResendB, Bool.and_eq_true] at hv
    obtain ⟨⟨hname, he⟩, hg⟩ := hv
    rw [hn] at hname
    cases o <;> simp [handlerResend, hname, he, hg, hn, subjectResend_eq_smtp, subjectSmtp]

/-- Witness for C4 at a concrete submission from the Application Form. -/
theorem c4_subject_mapping_witness :
    (handlerSmtp
      { smtpUser := some "u@h", sendToEmail := some "t@h", sendToEmailTest := none }
      { name := some "Asha", email := some "a@x.com", phone := some "999",
        message := some "Need a loan", loanType := none,
        sourcePage := some "Application Form" }
      (SendOutcome.ok none)).2.map (fun c => c.subject)
        = ["New Loan Application from Asha"]
    ∧ (handlerResend
      { smtpUser := some "u@h", sendToEmail := some "t@h", sendToEmailTest := none }
      { name := some "Asha", email := some "a@x.com", phone := some "999",
        message := some "Need a loan", loanType := none,
        sourcePage := some "Application Form" }
      (SendOutcome.ok none)).2.map (fun c => c.subject)
        = ["New Loan Application from Asha"] := by
  constructor
  · have h := (c4_subject_mapping
      { smtpUser := some "u@h", sendToEmail := some "t@h", sendToEmailTest := none }
      { name := some "Asha", email := some "a@x.com", phone := some "999",
        message := some "Need a loan", loanType := none,
        sourcePage := some "Application Form" }
      (SendOutcome.ok none) "Asha" rfl).1 (by decide)
    rw [if_pos rfl] at h
    exact h
  · have h := (c4_subject_mapping
      { smtpUser := some "u@h", sendToEmail := some "t@h", sendToEmailTest := none }
      { name := some "Asha", email := some "a@x.com", phone := some "999",
        message := some "Need a loan", loanType := none,
        sourcePage := some "Application Form" }
      (SendOutcome.ok none) "Asha" rfl).2 (by decide)
    rw [if_pos rfl] at h
    exact h

/-- C5 counterexample: the Resend variant sets the reply-to of the transport
call to escapeHtml(email), not the submitted email: for the submitted email
"a&b@x.com" the call carries "a&amp;b@x.com". -/
theorem c5_resend_reply_to_counterexample :
    (handlerResend
      { smtpUser := none, sendToEmail := some "t@h", sendToEmailTest := none }
      { name := some "Ann", email := some "a&b@x.com", phone := none,
        message := some "hi", loanType := none, sourcePage := none }
      (SendOutcome.ok none)).2.map (fun c => c.reply_to) = ["a&amp;b@x.com"]
    ∧ ("a&amp;b@x.com" : String) ≠ "a&b@x.com" := by
  constructor
  · decide
  · decide

/-- C5 (amended): for every valid submission exactly one transport call is
made; its reply-to equals the submitted email exactly in the SMTP variant,
while in the Resend variant it equals escapeHtml(email), which coincides with
the submitted email exactly when the email contains none of &, <, >. -/
theorem c5_single_call_reply_to (env : Env) (sub : Submission) (o : SendOutcome) (e : String)
    (hm : sub.email = some e) :
    (validSmtpB sub = true →
      (handlerSmtp env sub o).2.map (fun c => c.replyTo) = [e])
    ∧ (validResendB sub = true →
      (handlerResend env sub o).2.map (fun c => c.reply_to) = [escapeHtml e])
    ∧ ((∀ c ∈ e.data, c ≠ '&' ∧ c ≠ '<' ∧ c ≠ '>') → escapeHtml e = e) := by
  refine ⟨?_, ?_, fun h => escapeHtml_id h⟩
  · intro hv
    simp only [validSmtpB, Bool.and_eq_true] at hv
    obtain ⟨⟨hn, he⟩, hp⟩ := hv
    rw [hm] at he
    cases o <;> simp [handlerSmtp, hn, he, hp, hm]
  · intro hv
    simp only [validResendB, Bool.and_eq_true] at hv
    obtain ⟨⟨hn, he⟩, hg⟩ := hv
    rw [hm] at he
    cases o <;> simp [handlerResend, hn, he, hg, hm]

/-- Witness for C5 (amended) at a concrete submission whose email has no
escapable characters, so both variants carry it verbatim. -/
theorem c5_single_call_reply_to_witness :
    validSmtpB
      { name := some "Asha", email := some "a@x.com", phone := some "999",
        message := some "Need a loan", loanType := none, sourcePage := none } = true
    ∧ validResendB
      { name := some "Asha", email := some "a@x.com", phone := some "999",
        message := some "Need a loan", loanType := none, sourcePage := none } = true
    ∧ (handlerSmtp
        { smtpUser := some "u@h", sendToEmail := some "t@h", sendToEmailTest := none }
        { name := some "Asha", email := some "a@x.com", phone := some "999",
          message := some "Need a loan", loanType := none, sourcePage := none }
        (SendOutcome.ok none)).2.map (fun c => c.replyTo) = ["a@x.com"]
    ∧ (handlerResend
        { smtpUser := some "u@h", sendToEmail := some "t@h", sendToEmailTest := none }
        { name := some "Asha", email := some "a@x.com", phone := some "999",
          message := some "Need a loan", loanType := none, sourcePage := none }
        (SendOutcome.ok none)).2.map (fun c => c.reply_to) = [escapeHtml "a@x.com"]
    ∧ escapeHtml "a@x.com" = "a@x.com" :=
  ⟨by decide, by decide,
   (c5_single_call_reply_to
      { smtpUser := some "u@h", sendToEmail := some "t@h", sendToEmailTest := none }
      { name := some "Asha", email := some "a@x.com", phone := some "999",
        message := some "Need a loan", loanType := none, sourcePage := none }
      (SendOutcome.ok none) "a@x.com" rfl).1 (by decide),
   (c5_single_call_reply_to
      { smtpUser := some "u@h", sendToEmail := some "t@h", sendToEmailTest := none }
      { name := some "Asha", email := some "a@x.com", phone := some "999",
        message := some "Need a loan", loanType := none, sourcePage := none }
      (SendOutcome.ok none) "a@x.com" rfl).2.1 (by decide),
   (c5_single_call_reply_to
      { smtpUser := some "u@h", sendToEmail := some "t@h", sendToEmailTest := none }
      { name := some "Asha", email := some "a@x.com", phone := some "999",
        message := some "Need a loan", loanType := none, sourcePage := none }
      (SendOutcome.ok none) "a@x.com" rfl).2.2 (by decide)⟩

/-- C6 counterexample: the SMTP variant does not escape the message, so for a
valid submission with message "x<br/>y", which contains zero newlines, the
rendered HTML message section contains two "<br/>" occurrences (one fixed in
the template, one from the literal text of the message), not zero. -/
theorem c6_smtp_br_count_counterexample :
    validSmtpB
      { name := some "Asha", email := some "a@x.com", phone := some "999",
        message := some "x<br/>y", loanType := none, sourcePage := none } = true
    ∧ "x<br/>y".data.count '\n' = 0
    ∧ countSub "<br/>".data (messageSectionSmtp
      { name := some "Asha", email := some "a@x.com", phone := some "999",
        message := some "x<br/>y", loanType := none, sourcePage := none }) = 2 := by
  refine ⟨by decide, by decide, by decide⟩

/-- C6 (amended): in the Resend variant the HTML message section (the div
holding safeMessage) contains exactly one "<br/>" per newline of the message,
and that section is part of the outgoing HTML body; the SMTP plain-text body
embeds the message verbatim, its newlines unconverted.  In the SMTP variant
the HTML message section is not exact, see the counterexample; the Resend
variant produces no plain-text part. -/
theorem c6_newline_line_breaks (sub : Submission) (m : String)
    (hm : sub.message = some m) :
    countSub "<br/>".data (messageSectionResend sub) = m.data.count '\n'
    ∧ messageSectionResend sub <:+: htmlResend sub
    ∧ m.data <:+: textSmtp sub := by
  refine ⟨?_, msgSection_infix_htmlResend sub, ?_⟩
  · rw [countSub_br_messageSection, hm]
    rfl
  · refine ⟨"\nName: ".data ++ (jsStr sub.name).data ++ "\nEmail: ".data
      ++ (jsStr sub.email).data ++ "\nPhone: ".data ++ (jsStr sub.phone).data
      ++ "\nLoan Type: ".data ++ (jsStr sub.loanType).data ++ "\nMessage: ".data,
      "\nSource Page: ".data ++ (jsStr sub.sourcePage).data ++ "\n".data, ?_⟩
    simp [textSmtp, hm, jsStr, List.append_assoc]

/-- Witness for C6 (amended) at a concrete submission whose message holds two
newlines. -/
theorem c6_newline_line_breaks_witness :
    ({ name := some "Asha", email := some "a@x.com", phone := some "999",
       message := some "l1\nl2\nl3", loanType := none,
       sourcePage := none } : Submission).message = some "l1\nl2\nl3"
    ∧ (countSub "<br/>".data (messageSectionResend
        { name := some "Asha", email := some "a@x.com", phone := some "999",
          message := some "l1\nl2\nl3", loanType := none, sourcePage := none })
          = "l1\nl2\nl3".data.count '\n'
      ∧ messageSectionResend
        { name := some "Asha", email := some "a@x.com", phone := some "999",
          message := some "l1\nl2\nl3", loanType := none, sourcePage := none }
        <:+: htmlResend
        { name := some "Asha", email := some "a@x.com", phone := some "999",
          message := some "l1\nl2\nl3", loanType := none, sourcePage := none }
      ∧ "l1\nl2\nl3".data <:+: textSmtp
        { name := some "Asha", email := some "a@x.com", phone := some "999",
          message := some "l1\nl2\nl3", loanType := none, sourcePage := none }) :=
  ⟨rfl,
   c6_newline_line_breaks
     { name := some "Asha", email := some "a@x.com", phone := some "999",
       message := some "l1\nl2\nl3", loanType := none, sourcePage := none }
     "l1\nl2\nl3" rfl⟩

/-- C7 counterexample: on a successful send the SMTP variant responds
{success:true} with no id key at all, even though the transport provided the
message identifier "msg-id-123". -/
theorem c7_smtp_missing_id_counterexample :
    (handlerSmtp
      { smtpUser := some "u@h", sendToEmail := some "t@h", sendToEmailTest := none }
      { name := some "Asha", email := some "a@x.com", phone := some "999",
        message := some "Need a loan", loanType := none, sourcePage := none }
      (SendOutcome.ok (some "msg-id-123"))).1.status = 200
    ∧ (handlerSmtp
      { smtpUser := some "u@h", sendToEmail := some "t@h", sendToEmailTest := none }
      { name := some "Asha", email := some "a@x.com", phone := some "999",
        message := some "Need a loan", loanType := none, sourcePage := none }
      (SendOutcome.ok (some "msg-id-123"))).1.success = true
    ∧ (handlerSmtp
      { smtpUser := some "u@h", sendToEmail := some "t@h", sendToEmailTest := none }
      { name := some "Asha", email := some "a@x.com", phone := some "999",
        message := some "Need a loan", loanType := none, sourcePage := none }
      (SendOutcome.ok (some "msg-id-123"))).1.id = none
    ∧ (handlerSmtp
      { smtpUser := some "u@h", sendToEmail := some "t@h", sendToEmailTest := none }
      { name := some "Asha", email := some "a@x.com", phone := some "999",
        message := some "Need a loan", loanType := none, sourcePage := none }
      (SendOutcome.ok (some "msg-id-123"))).1.id ≠ some (some "msg-id-123") := by
  refine ⟨rfl, rfl, rfl, by decide⟩

/-- C7 (amended): for every valid submission on which the send succeeds, the
handler responds HTTP 200 with success=true; the Resend variant carries
id = the transport identifier when that is truthy and null otherwise, while
the SMTP variant never includes an id key, whatever identifier the transport
provides. -/
theorem c7_success_response_shape (env : Env) (sub : Submission) (rid : Option String) :
    (validSmtpB sub = true →
      (handlerSmtp env sub (SendOutcome.ok rid)).1
        = { status := 200, success := true, error := none, id := none })
    ∧ (validResendB sub = true →
      (handlerResend env sub (SendOutcome.ok rid)).1
        = { status := 200, success := true, error := none,
            id := some (if truthy rid then rid else none) }) := by
  constructor
  · intro hv
    simp only [validSmtpB, Bool.and_eq_true] at hv
    obtain ⟨⟨hn, he⟩, hp⟩ := hv
    simp [handlerSmtp, hn, he, hp]
  · intro hv
    simp only [validResendB, Bool.and_eq_true] at hv
    obtain ⟨⟨hn, he⟩, hg⟩ := hv
    simp [handlerResend, hn, he, hg]

/-- Witness for C7 (amended) at a concrete valid submission with a transport
identifier present. -/
theorem c7_success_response_shape_witness :
    validSmtpB
      { name := some "Asha", email := some "a@x.com", phone := some "999",
        message := some "Need a loan", loanType := none, sourcePage := none } = true
    ∧ validResendB
      { name := some "Asha", email := some "a@x.com", phone := some "999",
        message := some "Need a loan", loanType := none, sourcePage := none } = true
    ∧ (handlerSmtp
        { smtpUser := some "u@h", sendToEmail := some "t@h", sendToEmailTest := none }
        { name := some "Asha", email := some "a@x.com", phone := some "999",
          message := some "Need a loan", loanType := none, sourcePage := none }
        (SendOutcome.ok (some "msg-id-123"))).1
        = { status := 200, success := true, error := none, id := none }
    ∧ (handlerResend
        { smtpUser := some "u@h", sendToEmail := some "t@h", sendToEmailTest := none }
        { name := some "Asha", email := some "a@x.com", phone := some "999",
          message := some "Need a loan", loanType := none, sourcePage := none }
        (SendOutcome.ok (some "msg-id-123"))).1
        = { status := 200, success := true, error := none,
            id := some (if truthy (some "msg-id-123") then some "msg-id-123" else none) } :=
  ⟨by decide, by decide,
   (c7_success_response_shape
      { smtpUser := some "u@h", sendToEmail := some "t@h", sendToEmailTest := none }
      { name := some "Asha", email := some "a@x.com", phone := some "999",
        message := some "Need a loan", loanType := none, sourcePage := none }
      (some "msg-id-123")).1 (by decide),
   (c7_success_response_shape
      { smtpUser := some "u@h", sendToEmail := some "t@h", sendToEmailTest := none }
      { name := some "Asha", email := some "a@x.com", phone := some "999",
        message := some "Need a loan", loanType := none, sourcePage := none }
      (some "msg-id-123")).2 (by decide)⟩

/-- C8 counterexample: both variants accept a request whose Origin header is
present but empty (JS falsiness treats "" like an absent header), although ""
is neither an absent header nor a member of either allow-list. -/
theorem c8_empty_origin_counterexample :
    corsOriginSmtp (some "") = true
    ∧ corsOriginResend (some "") = true
    ∧ "" ∉ allowedOrigins_smtp
    ∧ "" ∉ allowedOrigins_resend
    ∧ some "" ≠ (none : Option String) := by
  refine ⟨by decide, by decide, by decide, by decide, by simp⟩

/-- C8 (amended): the CORS origin check of each variant accepts exactly those
requests whose Origin header is absent, empty, or a member of the fixed
allow-list of that variant, and rejects every other origin, in particular
"https://evil.example"; acceptance depends on nothing but the Origin value
and the allow-list. -/
theorem c8_cors_allow_list (origin : Option String) :
    (corsOriginSmtp origin = true ↔
      origin = none ∨ origin = some ""
        ∨ ∃ o, origin = some o ∧ o ∈ allowedOrigins_smtp)
    ∧ (corsOriginResend origin = true ↔
      origin = none ∨ origin = some ""
        ∨ ∃ o, origin = some o ∧ o ∈ allowedOrigins_resend)
    ∧ corsOriginSmtp (some "https://evil.example") = false
    ∧ corsOriginResend (some "https://evil.example") = false := by
  refine ⟨?_, ?_, by decide, by decide⟩
  · cases origin with
    | none => simp [corsOriginSmtp, truthy]
    | some s =>
        by_cases hs : s = ""
        · subst hs; simp [corsOriginSmtp, truthy]
        · simp [corsOriginSmtp, truthy, hs]
  · cases origin with
    | none => simp [corsOriginResend, truthy]
    | some s =>
        by_cases hs : s = ""
        · subst hs; simp [corsOriginResend, truthy]
        · simp [corsOriginResend, truthy, hs]

/-- C9: the subject functions of the two variants are extensionally equal (the
if/else chain of the SMTP variant and the switch of the Resend variant), and
the SMTP initial value "New Submission Received" is unreachable: no input
yields it, because every branch of the chain overwrites it. -/
theorem c9_subject_functions_agree (sp : Option String) (n : String) :
    subjectSmtp sp n = subjectResend sp n
    ∧ subjectSmtp sp n ≠ "New Submission Received" :=
  ⟨(subjectResend_eq_smtp sp n).symm, subjectSmtp_ne_initial sp n⟩

/-- C10: required-field validation is JavaScript truthiness: a required field
supplied as the empty string is rejected exactly like an absent field (the
handler output is identical), while a whitespace-only value such as " "
passes validation and triggers exactly one transport call; nothing is
trimmed. -/
theorem c10_truthiness_validation (env : Env) (sub : Submission) (o : SendOutcome) :
    (handlerSmtp env { sub with name := some "" } o
      = handlerSmtp env { sub with name := none } o)
    ∧ (handlerSmtp env { sub with email := some "" } o
      = handlerSmtp env { sub with email := none } o)
    ∧ (handlerSmtp env { sub with phone := some "" } o
      = handlerSmtp env { sub with phone := none } o)
    ∧ (handlerResend env { sub with name := some "" } o
      = handlerResend env { sub with name := none } o)
    ∧ (handlerResend env { sub with email := some "" } o
      = handlerResend env { sub with email := none } o)
    ∧ (handlerResend env { sub with message := some "" } o
      = handlerResend env { sub with message := none } o)
    ∧ (handlerSmtp env
        { name := some " ", email := some " ", phone := some " ",
          message := some " ", loanType := none, sourcePage := none } o).2.length = 1
    ∧ (handlerResend env
        { name := some " ", email := some " ", phone := some " ",
          message := some " ", loanType := none, sourcePage := none } o).2.length = 1 := by
  refine ⟨?_, ?_, ?_, ?_, ?_, ?_, ?_, ?_⟩
  · simp [handlerSmtp, truthy]
  · simp [handlerSmtp, truthy]
  · simp [handlerSmtp, truthy]
  · simp [handlerResend, truthy]
  · simp [handlerResend, truthy]
  · simp [handlerResend, truthy]
  · cases o <;> rfl
  · cases o <;> rfl
